import Mathlib

/-!
Verification of `src/llm_py/ollama.py` (OsmoGrep): a prompt relay that reads
standard input, short-circuits when the stripped input is empty, otherwise
runs `["ollama", "run", model]` with the original prompt on the child's
standard input, and relays the child's captured output, error text and exit
code.  The script is embedded as a pure function parameterized by the child
process's behavior; spawned child invocations are recorded explicitly so
that theorems can speak about what was launched and with which input.
-/

namespace Ollama

/-- Python space characters stripped by `str.strip()` (the ASCII subset of
Python's whitespace set, which is what the claims range over). -/
def pyIsSpace (c : Char) : Bool :=
  c = ' ' || c = '\t' || c = '\n' || c = '\r' || c = '\x0b' || c = '\x0c'

/-- Embedding of Python `str.strip()`: remove leading and trailing
whitespace characters. -/
def pyStrip (s : String) : String :=
  ⟨((s.data.dropWhile pyIsSpace).reverse.dropWhile pyIsSpace).reverse⟩

/-- Result of one `subprocess.run` call: the captured text streams and the
return code as Python reports it (`Int`, because a signal-terminated child
is reported as the negated signal number). -/
structure ChildResult where
  returncode : Int
  stdout : String
  stderr : String
  deriving Repr, DecidableEq

/-- What one run of the relay process did: text written to its standard
output and standard error, the integer handed to `sys.exit` (0 when `main`
returns normally), and the list of child processes spawned, each recorded
as (argument vector, text supplied on the child's standard input). -/
structure RelayResult where
  stdout : String
  stderr : String
  exitCode : Int
  calls : List (List String × String)
  deriving Repr, DecidableEq

/-- Observable outcome of the process: a normal exit, or an unhandled
exception escaping `main` (recording what had been written and spawned
before the fault). -/
inductive Outcome where
  | exit (r : RelayResult)
  | fault (stdoutWritten stderrWritten : String)
      (calls : List (List String × String))
  deriving Repr, DecidableEq

/-- The hardcoded model identifier of `ollama.py`, line 12. -/
def model : String := "qwen2.5-coder:7b"

/-- The argument vector passed to `subprocess.run`, line 16. -/
def ollamaArgv : List String := ["ollama", "run", model]

/-- Embedding of `main()` of `ollama.py`.  `child` is the behavior of the
external command: given the argument vector and the text supplied on its
standard input it either launches and yields a `ChildResult`, or fails to
launch (`.error`, e.g. `FileNotFoundError`), which `main` does not catch. -/
def main (stdin : String)
    (child : List String → String → Except String ChildResult) : Outcome :=
  let prompt := stdin
  if pyStrip prompt = "" then
    .exit ⟨"", "", 0, []⟩
  else
    match child ollamaArgv prompt with
    | .error _ => .fault "" "" []
    | .ok proc =>
      if proc.returncode ≠ 0 then
        .exit ⟨"", proc.stderr, proc.returncode, [(ollamaArgv, prompt)]⟩
      else
        .exit ⟨proc.stdout, "", 0, [(ollamaArgv, prompt)]⟩

/-- The exit status the operating system reports for `sys.exit n`: the
integer is truncated modulo 256 by the OS. -/
def observedStatus (n : Int) : Nat :=
  (n % 256).toNat

/-- A well-formed byte (for the UTF-8 decoder below). -/
def contByte (b : Nat) : Bool :=
  128 ≤ b && b < 192

/-- Strict UTF-8 decoding, fuel-indexed so the recursion is structural:
every step consumes at least one byte, so fuel equal to the length of the
byte list is always sufficient. -/
def decodeUtf8Go : Nat → List Nat → Option (List Char)
  | _, [] => some []
  | 0, _ :: _ => none
  | fuel + 1, b :: rest =>
    if b < 128 then
      (decodeUtf8Go fuel rest).map (Char.ofNat b :: ·)
    else if b < 192 then
      none
    else if b < 224 then
      match rest with
      | b1 :: rest2 =>
        if contByte b1 then
          let cp := (b - 192) * 64 + (b1 - 128)
          if cp < 128 then none
          else (decodeUtf8Go fuel rest2).map (Char.ofNat cp :: ·)
        else none
      | [] => none
    else if b < 240 then
      match rest with
      | b1 :: b2 :: rest3 =>
        if contByte b1 && contByte b2 then
          let cp := (b - 224) * 4096 + (b1 - 128) * 64 + (b2 - 128)
          if cp < 2048 then none
          else if 55296 ≤ cp ∧ cp < 57344 then none
          else (decodeUtf8Go fuel rest3).map (Char.ofNat cp :: ·)
        else none
      | _ => none
    else if b < 245 then
      match rest with
      | b1 :: b2 :: b3 :: rest4 =>
        if contByte b1 && contByte b2 && contByte b3 then
          let cp := (b - 240) * 262144 + (b1 - 128) * 4096
            + (b2 - 128) * 64 + (b3 - 128)
          if cp < 65536 then none
          else if cp > 1114111 then none
          else (decodeUtf8Go fuel rest4).map (Char.ofNat cp :: ·)
        else none
      | _ => none
    else
      none

/-- Strict UTF-8 decoding of a byte sequence, as Python's text-mode
`sys.stdin.read()` performs under a UTF-8 locale: `none` models a
`UnicodeDecodeError` (overlong forms, surrogates and out-of-range code
points are all rejected, as in Python). -/
def decodeUtf8 (bs : List Nat) : Option (List Char) :=
  decodeUtf8Go bs.length bs

/-- The whole process at the byte level: standard input is read eagerly and
decoded as text before anything else; a decoding error is an unhandled fault
raised before any output is written or any child is spawned. -/
def mainBytes (bs : List Nat)
    (child : List String → String → Except String ChildResult) : Outcome :=
  match decodeUtf8 bs with
  | none => .fault "" "" []
  | some cs => main ⟨cs⟩ child

/-- Modelled from the spec: the repository's second script variant (not
present under `src/`) resolves the model identifier from a designated
environment variable — its value when the variable is present and
non-empty, else a literal default. -/
def resolveModel (envVar : Option String) (defaultModel : String) : String :=
  match envVar with
  | some v => if v = "" then defaultModel else v
  | none => defaultModel

/-- Modelled from the spec: the environment-variable variant of the relay;
identical to `main` except that the model argument is resolved through
`resolveModel`. -/
def mainEnv (envVar : Option String) (defaultModel : String) (stdin : String)
    (child : List String → String → Except String ChildResult) : Outcome :=
  let prompt := stdin
  let argv := ["ollama", "run", resolveModel envVar defaultModel]
  if pyStrip prompt = "" then
    .exit ⟨"", "", 0, []⟩
  else
    match child argv prompt with
    | .error _ => .fault "" "" []
    | .ok proc =>
      if proc.returncode ≠ 0 then
        .exit ⟨"", proc.stderr, proc.returncode, [(argv, prompt)]⟩
      else
        .exit ⟨proc.stdout, "", 0, [(argv, prompt)]⟩

/-- The child invocations an outcome records, whether the process exited
normally or faulted. -/
def Outcome.spawned : Outcome → List (List String × String)
  | .exit r => r.calls
  | .fault _ _ cs => cs

lemma pyStrip_eq_empty_of_all_space {s : String}
    (h : ∀ c ∈ s.data, pyIsSpace c) : pyStrip s = "" := by
  unfold pyStrip
  have h1 : s.data.dropWhile pyIsSpace = [] :=
    List.dropWhile_eq_nil_iff.mpr h
  rw [h1]
  rfl

/-- C1: an input that is empty or consists only of whitespace characters
makes the relay write nothing to either stream, spawn no child process and
exit with status 0, whatever the external command would do. -/
theorem C1_whitespace_input_silent_success (s : String)
    (child : List String → String → Except String ChildResult)
    (h : ∀ c ∈ s.data, pyIsSpace c) :
    main s child = .exit ⟨"", "", 0, []⟩ := by
  simp [main, pyStrip_eq_empty_of_all_space h]

theorem C1_whitespace_input_silent_success_witness :
    (∀ c ∈ (" \n\t ").data, pyIsSpace c) ∧
    main " \n\t " (fun _ _ => .ok ⟨0, "RESPONSE", ""⟩) = .exit ⟨"", "", 0, []⟩ :=
  ⟨by decide, C1_whitespace_input_silent_success " \n\t "
    (fun _ _ => .ok ⟨0, "RESPONSE", ""⟩) (by decide)⟩

/-- C2: for a prompt that is non-empty after stripping, when the child
command exits with status zero the relay writes the child's captured
standard output verbatim to its own standard output, writes nothing to
standard error and exits with status 0. -/
theorem C2_success_relays_stdout (s : String)
    (child : List String → String → Except String ChildResult)
    (p : ChildResult)
    (hs : pyStrip s ≠ "")
    (hc : child ollamaArgv s = .ok p)
    (h0 : p.returncode = 0) :
    main s child = .exit ⟨p.stdout, "", 0, [(ollamaArgv, s)]⟩ := by
  simp [main, hs, hc, h0]

theorem C2_success_relays_stdout_witness :
    main "hi" (fun _ _ => .ok ⟨0, "RESPONSE", ""⟩)
      = .exit ⟨"RESPONSE", "", 0, [(ollamaArgv, "hi")]⟩ :=
  C2_success_relays_stdout "hi" (fun _ _ => .ok ⟨0, "RESPONSE", ""⟩)
    ⟨0, "RESPONSE", ""⟩ (by decide) rfl rfl

/-- C3: for a prompt that is non-empty after stripping, when the child
command exits with a non-zero status N (a genuine child exit status lies in
1..255) the relay writes the child's captured standard error verbatim to
its own standard error, writes nothing to standard output, and the
OS-observed exit status of the relay equals N. -/
theorem C3_failure_relays_stderr (s : String)
    (child : List String → String → Except String ChildResult)
    (p : ChildResult) (N : Int)
    (hs : pyStrip s ≠ "")
    (hc : child ollamaArgv s = .ok p)
    (hN : p.returncode = N) (h1 : 1 ≤ N) (h2 : N ≤ 255) :
    main s child = .exit ⟨"", p.stderr, N, [(ollamaArgv, s)]⟩
      ∧ (observedStatus N : Int) = N := by
  constructor
  · have hne : N ≠ 0 := by omega
    simp [main, hs, hc, hN, hne]
  · unfold observedStatus
    omega

theorem C3_failure_relays_stderr_witness :
    main "x" (fun _ _ => .ok ⟨7, "", "ERR"⟩)
      = .exit ⟨"", "ERR", 7, [(ollamaArgv, "x")]⟩
      ∧ (observedStatus 7 : Int) = 7 :=
  C3_failure_relays_stderr "x" (fun _ _ => .ok ⟨7, "", "ERR"⟩)
    ⟨7, "", "ERR"⟩ 7 (by decide) rfl rfl (by decide) (by decide)

/-- C4: for a prompt that is non-empty after stripping, whenever the child
command launches, the text delivered on the child's standard input is the
original standard-input content, byte for byte — stripping is used only for
the emptiness check and never applied to the forwarded content. -/
theorem C4_prompt_forwarded_verbatim (s : String)
    (child : List String → String → Except String ChildResult)
    (p : ChildResult)
    (hs : pyStrip s ≠ "")
    (hc : child ollamaArgv s = .ok p) :
    (main s child).spawned = [(ollamaArgv, s)] := by
  by_cases h0 : p.returncode = 0 <;>
    simp [main, hs, hc, h0, Outcome.spawned]

theorem C4_prompt_forwarded_verbatim_witness :
    (main "  padded prompt  "
      (fun _ _ => .ok ⟨0, "RESPONSE", ""⟩)).spawned
      = [(ollamaArgv, "  padded prompt  ")] :=
  C4_prompt_forwarded_verbatim "  padded prompt  "
    (fun _ _ => .ok ⟨0, "RESPONSE", ""⟩) ⟨0, "RESPONSE", ""⟩
    (by decide) rfl

/-- C5: for a prompt that is non-empty after stripping, whenever the child
command launches, the relay executes exactly one external command, whose
argument vector is the fixed three tokens `ollama run <model>` (run verb
plus resolved model identifier), with the prompt on its standard input. -/
theorem C5_single_fixed_invocation (s : String)
    (child : List String → String → Except String ChildResult)
    (p : ChildResult)
    (hs : pyStrip s ≠ "")
    (hc : child ollamaArgv s = .ok p) :
    (main s child).spawned.length = 1
      ∧ (main s child).spawned = [(["ollama", "run", model], s)] := by
  have hm : (main s child).spawned = [(ollamaArgv, s)] := by
    by_cases h0 : p.returncode = 0 <;>
      simp [main, hs, hc, h0, Outcome.spawned]
  rw [hm]
  exact ⟨rfl, rfl⟩

theorem C5_single_fixed_invocation_witness :
    (main "q" (fun _ _ => .ok ⟨2, "", "boom"⟩)).spawned.length = 1
      ∧ (main "q" (fun _ _ => .ok ⟨2, "", "boom"⟩)).spawned
        = [(["ollama", "run", model], "q")] :=
  C5_single_fixed_invocation "q" (fun _ _ => .ok ⟨2, "", "boom"⟩)
    ⟨2, "", "boom"⟩ (by decide) rfl

/-- C6: in the environment-variable variant, when the configuration
variable is set to "modelX" the child command receives "modelX" as its
model argument; when the variable is unset it receives the literal default
model identifier. -/
theorem C6_model_resolution (s d : String)
    (child : List String → String → Except String ChildResult)
    (p q : ChildResult)
    (hs : pyStrip s ≠ "")
    (hp : child ["ollama", "run", "modelX"] s = .ok p)
    (hq : child ["ollama", "run", d] s = .ok q) :
    (mainEnv (some "modelX") d s child).spawned
        = [(["ollama", "run", "modelX"], s)]
      ∧ (mainEnv none d s child).spawned = [(["ollama", "run", d], s)] := by
  constructor
  · by_cases h0 : p.returncode = 0 <;>
      simp [mainEnv, resolveModel, hs, hp, h0, Outcome.spawned]
  · by_cases h0 : q.returncode = 0 <;>
      simp [mainEnv, resolveModel, hs, hq, h0, Outcome.spawned]

theorem C6_model_resolution_witness :
    (mainEnv (some "modelX") "default-model" "p"
        (fun _ _ => .ok ⟨0, "", ""⟩)).spawned
      = [(["ollama", "run", "modelX"], "p")]
      ∧ (mainEnv none "default-model" "p"
          (fun _ _ => .ok ⟨0, "", ""⟩)).spawned
        = [(["ollama", "run", "default-model"], "p")] :=
  C6_model_resolution "p" "default-model" (fun _ _ => .ok ⟨0, "", ""⟩)
    ⟨0, "", ""⟩ ⟨0, "", ""⟩ (by decide) rfl rfl

/-- C7: the relay is deterministic — two runs with identical standard-input
content and an identical child behavior produce identical standard output,
standard error and exit code. -/
theorem C7_deterministic (s : String)
    (child : List String → String → Except String ChildResult)
    (o₁ o₂ : Outcome)
    (h1 : o₁ = main s child) (h2 : o₂ = main s child) :
    o₁ = o₂ :=
  h1.trans h2.symm

theorem C7_deterministic_witness :
    main "hello" (fun _ _ => .ok ⟨0, "RESPONSE", ""⟩)
      = main "hello" (fun _ _ => .ok ⟨0, "RESPONSE", ""⟩) :=
  C7_deterministic "hello" (fun _ _ => .ok ⟨0, "RESPONSE", ""⟩)
    (main "hello" (fun _ _ => .ok ⟨0, "RESPONSE", ""⟩))
    (main "hello" (fun _ _ => .ok ⟨0, "RESPONSE", ""⟩)) rfl rfl

/-- C8: when launching the child command fails (e.g. the external command
is not found), the relay performs no handling: the launch failure escapes
`main` as an unhandled fault of the host runtime, with nothing written to
standard output (or standard error) by the relay and no child spawned. -/
theorem C8_launch_failure_unhandled (s : String)
    (child : List String → String → Except String ChildResult)
    (e : String)
    (hs : pyStrip s ≠ "")
    (hc : child ollamaArgv s = .error e) :
    main s child = .fault "" "" [] := by
  simp [main, hs, hc]

theorem C8_launch_failure_unhandled_witness :
    main "prompt" (fun _ _ => .error "FileNotFoundError")
      = .fault "" "" [] :=
  C8_launch_failure_unhandled "prompt"
    (fun _ _ => .error "FileNotFoundError") "FileNotFoundError"
    (by decide) rfl

/-- C9: when the child is terminated by a signal, `subprocess.run` reports
a negative `returncode`; being non-zero, it sends the relay into the error
branch, which hands the negative value to `sys.exit`.  The OS-observed exit
status (the value taken modulo 256) then differs from the reported child
code, so exit-code propagation is exact only for child exit statuses in
1..255. -/
theorem C9_negative_returncode_truncated (s : String)
    (child : List String → String → Except String ChildResult)
    (p : ChildResult)
    (hs : pyStrip s ≠ "")
    (hc : child ollamaArgv s = .ok p)
    (hr : p.returncode < 0) :
    main s child = .exit ⟨"", p.stderr, p.returncode, [(ollamaArgv, s)]⟩
      ∧ (observedStatus p.returncode : Int) ≠ p.returncode
      ∧ ∀ n : Int, 1 ≤ n → n ≤ 255 → (observedStatus n : Int) = n := by
  refine ⟨?_, ?_, ?_⟩
  · have hne : p.returncode ≠ 0 := by omega
    simp [main, hs, hc, hne]
  · unfold observedStatus
    omega
  · intro n h1 h2
    unfold observedStatus
    omega

theorem C9_negative_returncode_truncated_witness :
    main "y" (fun _ _ => .ok ⟨-15, "", "killed"⟩)
      = .exit ⟨"", "killed", -15, [(ollamaArgv, "y")]⟩
      ∧ (observedStatus (-15) : Int) ≠ -15
      ∧ ∀ n : Int, 1 ≤ n → n ≤ 255 → (observedStatus n : Int) = n :=
  C9_negative_returncode_truncated "y" (fun _ _ => .ok ⟨-15, "", "killed"⟩)
    ⟨-15, "", "killed"⟩ (by decide) rfl (by decide)

/-- C10: standard input is read eagerly and decoded as text (UTF-8 locale)
before any other step; a byte sequence invalid in that encoding — such as
the single byte 0xFF — makes the read raise a decoding error, so the
process terminates with an unhandled fault, spawning no child process and
writing nothing to standard output. -/
theorem C10_invalid_bytes_unhandled_fault :
    decodeUtf8 [255] = none
      ∧ ∀ child, mainBytes [255] child = .fault "" "" [] := by
  have h : decodeUtf8 [255] = none := by decide
  exact ⟨h, fun child => by simp [mainBytes, h]⟩

end Ollama
